import Mathlib

/-!
Shallow embedding of the UserInfo dApp client (a single React component).
The component keeps its state in React hooks; here that state is an explicit
structure, and every event handler (connectWallet, disconnectWallet,
addUserInfo, loadUserDataForCurrentUser, loadUserData, searchUser, and the
message auto-clear effect) becomes a pure function from the state and the
responses of the external collaborators (wallet, transactor, record store)
to the next state.  Each handler additionally reports which network calls
it made, so that claims of the form "no network call is attempted" are
statable.
-/

namespace UserDApp

/-- Whitespace as recognised by the ECMAScript trim and parseInt operations:
the WhiteSpace and LineTerminator code points. -/
def isJsWhitespace (c : Char) : Bool :=
  c.val = 0x9 || c.val = 0xA || c.val = 0xB || c.val = 0xC || c.val = 0xD ||
  c.val = 0x20 || c.val = 0xA0 || c.val = 0x1680 ||
  (0x2000 ≤ c.val && c.val ≤ 0x200A) ||
  c.val = 0x2028 || c.val = 0x2029 || c.val = 0x202F || c.val = 0x205F ||
  c.val = 0x3000 || c.val = 0xFEFF

/-- JavaScript String.prototype.trim: remove leading and trailing
ECMAScript whitespace. -/
def jsTrim (s : String) : String :=
  ⟨((s.data.dropWhile isJsWhitespace).reverse.dropWhile isJsWhitespace).reverse⟩

/-- The code points removed by the regular expression [u200B-u200D uFEFF]
in addUserInfo: zero-width space, zero-width non-joiner, zero-width joiner,
and the byte-order mark. -/
def isZeroWidth (c : Char) : Bool :=
  (0x200B ≤ c.val && c.val ≤ 0x200D) || c.val = 0xFEFF

/-- Field sanitation performed by addUserInfo, source line 131:
trim, then strip zero-width code points. -/
def sanitize (s : String) : String :=
  ⟨(jsTrim s).data.filter (fun c => !isZeroWidth c)⟩

/-- Value of a character as a base-16 digit, when it is one. -/
def hexDigitVal (c : Char) : Option Nat :=
  if '0' ≤ c ∧ c ≤ '9' then some (c.toNat - '0'.toNat)
  else if 'a' ≤ c ∧ c ≤ 'f' then some (c.toNat - 'a'.toNat + 10)
  else if 'A' ≤ c ∧ c ≤ 'F' then some (c.toNat - 'A'.toNat + 10)
  else none

/-- Accumulate the longest prefix of digits below the radix, returning the
number of digits consumed and their value. -/
def takeDigits (radix : Nat) : List Char → Nat → Nat → Nat × Nat
  | [], count, acc => (count, acc)
  | c :: rest, count, acc =>
    match hexDigitVal c with
    | some v => if v < radix then takeDigits radix rest (count + 1) (acc * radix + v) else (count, acc)
    | none => (count, acc)

/-- JavaScript Number.parseInt with no radix argument: skip leading
whitespace, read an optional sign, switch to base 16 after a 0x or 0X
prefix, then take the longest prefix of digits; none models NaN. -/
def jsParseInt (s : String) : Option Int :=
  let cs := s.data.dropWhile isJsWhitespace
  let signed : Int × List Char :=
    match cs with
    | '-' :: rest => (-1, rest)
    | '+' :: rest => (1, rest)
    | _ => (1, cs)
  let based : Nat × List Char :=
    match signed.2 with
    | '0' :: 'x' :: rest => (16, rest)
    | '0' :: 'X' :: rest => (16, rest)
    | _ => (10, signed.2)
  let parsed := takeDigits based.1 based.2 0 0
  if parsed.1 = 0 then none else some (signed.1 * parsed.2)

/-- Profile record as displayed by the client (the UserData interface). -/
structure UserData where
  name : String
  age : Nat
  profession : String
  bio : String
deriving DecidableEq, Repr

/-- The four controlled form fields; age is the raw text of the input. -/
structure FormData where
  name : String
  age : String
  profession : String
  bio : String
deriving DecidableEq, Repr

/-- The React component state: account, handles (modelled by presence
flags, since only their presence is ever branched on), the loading flag,
the error and success banners, the form, and the two profile views. -/
structure AppState where
  account : String
  hasProvider : Bool
  hasSigner : Bool
  hasContract : Bool
  loading : Bool
  error : String
  success : String
  formData : FormData
  currentUserData : Option UserData
  searchAddress : String
  searchedUserData : Option UserData
deriving DecidableEq, Repr

/-- The initial hook values of the component. -/
def initState : AppState :=
  { account := ""
    hasProvider := false
    hasSigner := false
    hasContract := false
    loading := false
    error := ""
    success := ""
    formData := { name := "", age := "", profession := "", bio := "" }
    currentUserData := none
    searchAddress := ""
    searchedUserData := none }

/-- A JavaScript error value as inspected by the catch blocks: its code,
message and reason properties, each possibly absent. -/
structure JsError where
  code : Option String
  message : Option String
  reason : Option String
deriving DecidableEq, Repr

/-- Outcome of a read-only getUserInfo call: the four returned values, or
a thrown error. -/
inductive ReadOutcome where
  | ok (name : String) (age : Nat) (profession : String) (bio : String)
  | err (e : JsError)
deriving DecidableEq, Repr

/-- Outcome of the addUserInfo transaction together with its confirmation
wait: confirmed, or a failure thrown at send or wait time. -/
inductive TxResult where
  | confirmed
  | failed (e : JsError)
deriving DecidableEq, Repr

/-- Arguments with which the contract upsert addUserInfo is invoked. -/
structure UpsertArgs where
  name : String
  age : Nat
  profession : String
  bio : String
deriving DecidableEq, Repr

/-- The record store: one (name, age, profession, bio) row per address;
an absent record is the row with an empty name. -/
abbrev Store := String → String × Nat × String × String

/-- Applying a confirmed upsert from a given caller to the store. -/
def storeUpsert (store : Store) (caller : String) (args : UpsertArgs) : Store :=
  fun a => if a = caller then (args.name, args.age, args.profession, args.bio) else store a

/-- A successful read of the store at an address. -/
def readStore (store : Store) (addr : String) : ReadOutcome :=
  ReadOutcome.ok (store addr).1 (store addr).2.1 (store addr).2.2.1 (store addr).2.2.2

/-- JavaScript substring containment, as in message.includes(needle). -/
def strContains (haystack needle : String) : Bool :=
  (List.range (haystack.length + 1)).any fun i => needle.isPrefixOf (haystack.drop i)

/-- The optional-chaining test err.message?.includes(needle): false when
the message is absent. -/
def messageIncludes (e : JsError) (needle : String) : Bool :=
  match e.message with
  | some m => strContains m needle
  | none => false

/-- JavaScript a || b for an optional string a: b when a is absent or
empty (falsy), a otherwise. -/
def jsOrElse (a : Option String) (b : String) : String :=
  match a with
  | some s => if s = "" then b else s
  | none => b

/-- Template-literal rendering of a possibly absent string. -/
def jsShow (a : Option String) : String :=
  match a with
  | some s => s
  | none => "undefined"

/-- The catch block of addUserInfo, source lines 181 to 195: classify the
failure by code, then by message substring, with a generic fallback. -/
def classifyTxError (e : JsError) : String :=
  if e.code = some "INVALID_ARGUMENT" then
    "Invalid input data. Please check your entries and try again."
  else if e.code = some "UNPREDICTABLE_GAS_LIMIT" then
    "Transaction failed. Please check your inputs and try again."
  else if messageIncludes e "user rejected" then
    "Transaction was rejected by user"
  else if messageIncludes e "insufficient funds" then
    "Insufficient funds to complete the transaction"
  else
    "Failed to add user info: " ++ jsOrElse e.reason (jsOrElse e.message "Unknown error")

/-- Sanitation and validation of the form, source lines 130 to 152: each
text field trimmed and stripped of zero-width code points and required
non-empty, the age parsed with parseInt and required in 1..150.  Returns
the upsert arguments, or the error banner text of the failed check. -/
def sanitizeValidate (f : FormData) : Except String UpsertArgs :=
  let sanitizedName := sanitize f.name
  let sanitizedProfession := sanitize f.profession
  let sanitizedBio := sanitize f.bio
  let age := jsParseInt f.age
  if sanitizedName = "" then Except.error "Name cannot be empty"
  else if sanitizedProfession = "" then Except.error "Profession cannot be empty"
  else if sanitizedBio = "" then Except.error "Bio cannot be empty"
  else
    match age with
    | none => Except.error "Please enter a valid age between 1 and 150"
    | some a =>
      if a ≤ 0 ∨ 150 < a then Except.error "Please enter a valid age between 1 and 150"
      else Except.ok { name := sanitizedName, age := a.toNat, profession := sanitizedProfession, bio := sanitizedBio }

/-- loadUserDataForCurrentUser, source lines 202 to 229.  hasC is whether
the contract handle used (the explicit argument, or else the one in
state) is present; r is the response of the getUserInfo call.  A thrown
read and an empty-name row both clear the own-profile view; errors are
only logged, never surfaced. -/
def loadUserDataForCurrentUser (s : AppState) (hasC : Bool) (r : ReadOutcome) : AppState :=
  if !hasC then s
  else
    match r with
    | ReadOutcome.ok n a p b =>
      if n ≠ "" then { s with currentUserData := some { name := n, age := a, profession := p, bio := b } }
      else { s with currentUserData := none }
    | ReadOutcome.err _ => { s with currentUserData := none }

/-- Hexadecimal digit test. -/
def isHexDigit (c : Char) : Bool :=
  ('0' ≤ c && c ≤ '9') || ('a' ≤ c && c ≤ 'f') || ('A' ≤ c && c ≤ 'F')

/-- Model of the external library validator ethers.isAddress: a
well-formed address is 0x followed by 40 hexadecimal digits whose letters
are all lowercase or all uppercase.  The library additionally accepts
mixed-case strings whose case matches the EIP-55 keccak256 checksum; that
class is conservatively treated as malformed here, so this model accepts
a subset of the library addresses and rejects a superset of the library
rejects.  Every theorem below uses only the truth value of this test, so
its conclusions hold verbatim for the library on the common class. -/
def isAddress (s : String) : Bool :=
  s.length == 42 && s.data.take 2 == ['0', 'x'] &&
  (s.data.drop 2).all isHexDigit &&
  ((s.data.drop 2).all (fun c => !('A' ≤ c && c ≤ 'F')) ||
   (s.data.drop 2).all (fun c => !('a' ≤ c && c ≤ 'f')))

/-- loadUserData for a searched address, source lines 232 to 264.  The
returned Bool records whether the network read was made: no contract
handle or a malformed address returns early (only logging), making no
call and changing no state. -/
def loadUserData (s : AppState) (address : String) (r : ReadOutcome) : AppState × Bool :=
  if !s.hasContract then (s, false)
  else if !isAddress address then (s, false)
  else
    match r with
    | ReadOutcome.ok n a p b =>
      if n ≠ "" then ({ s with searchedUserData := some { name := n, age := a, profession := p, bio := b } }, true)
      else ({ s with searchedUserData := none }, true)
    | ReadOutcome.err _ => ({ s with searchedUserData := none }, true)

/-- addUserInfo, the form submit handler, source lines 123 to 199.  tx is
the outcome of the transaction and its confirmation wait; reload is the
response of the getUserInfo call made to refresh the own profile after
confirmation.  The second component is the arguments of the upsert call,
or none when no call was made.  On any validation failure the handler
sets the error banner and returns before touching the form or the
network; on a confirmed transaction it sets the success banner, reloads
the own profile and clears the form; on a thrown failure it classifies
the error, leaving form and profile views untouched. -/
def addUserInfo (s : AppState) (tx : TxResult) (reload : ReadOutcome) :
    AppState × Option UpsertArgs :=
  if !s.hasContract || !s.hasSigner then
    ({ s with error := "Please connect your wallet first" }, none)
  else
    match sanitizeValidate s.formData with
    | Except.error msg => ({ s with error := msg }, none)
    | Except.ok args =>
      let s1 := { s with loading := true, error := "" }
      match tx with
      | TxResult.failed e =>
        ({ s1 with error := classifyTxError e, loading := false }, some args)
      | TxResult.confirmed =>
        let s2 := { s1 with success := "User information added successfully!" }
        let s3 := loadUserDataForCurrentUser s2 s2.hasContract reload
        ({ s3 with formData := { name := "", age := "", profession := "", bio := "" }, loading := false }, some args)

/-- searchUser, source lines 267 to 286: guard on a present contract and
a non-empty search box, validate the address locally (setting the error
banner and stopping on failure), then clear the banner and the previous
result and delegate to loadUserData.  The Bool records whether the
network read was made. -/
def searchUser (s : AppState) (r : ReadOutcome) : AppState × Bool :=
  if !s.hasContract || s.searchAddress = "" then (s, false)
  else if !isAddress s.searchAddress then
    ({ s with error := "Please enter a valid Ethereum address" }, false)
  else
    let s1 := { s with loading := true, error := "", searchedUserData := none }
    let stepped := loadUserData s1 s.searchAddress r
    ({ stepped.1 with loading := false }, stepped.2)

/-- Outcome of the wallet-connection attempt: no injected provider, a
thrown failure, or success with the selected account and the response of
the initial own-profile read. -/
inductive ConnectOutcome where
  | noProvider
  | failed (e : JsError)
  | ok (account : String) (r : ReadOutcome)
deriving DecidableEq, Repr

/-- connectWallet, source lines 83 to 106: on success store the provider,
signer, contract and account, clear the error, set the success banner and
load the own profile, passing the fresh account and contract handle
directly. -/
def connectWallet (s : AppState) (o : ConnectOutcome) : AppState :=
  match o with
  | ConnectOutcome.noProvider =>
    { s with error := "Please install MetaMask to use this application" }
  | ConnectOutcome.failed e =>
    { s with error := "Failed to connect wallet: " ++ jsShow e.message }
  | ConnectOutcome.ok account r =>
    let s1 := { s with hasProvider := true, hasSigner := true, hasContract := true,
                       account := account, error := "", success := "Wallet connected successfully!" }
    loadUserDataForCurrentUser s1 true r

/-- disconnectWallet, source lines 109 to 120: a pure local reset of the
session, both profile views, the search box and the form, with a success
banner; it consults no external collaborator, so it takes no outcome
argument and always succeeds. -/
def disconnectWallet (s : AppState) : AppState :=
  { s with hasProvider := false, hasSigner := false, hasContract := false,
           account := "", currentUserData := none, searchedUserData := none,
           searchAddress := "", formData := { name := "", age := "", profession := "", bio := "" },
           error := "", success := "Wallet disconnected successfully!" }

/-- The auto-clear delay of the banner effect, source line 294, in the
units of the discrete clock (5000 milliseconds in the source). -/
def clearDelay : Nat := 5

/-- State of the banner subsystem: the two banner strings together with
the deadline of the pending clear timer, when one is armed. -/
structure NotifState where
  error : String
  success : String
  deadline : Option Nat
deriving DecidableEq, Repr

/-- A banner update at the given time, followed by the rerender effect of
source lines 289 to 297.  The effect depends exactly on the pair (error,
success): an update to an equal pair does not rerun it.  When it reruns,
its cleanup cancels any pending timer, and a new 5-unit timer is armed
exactly when some banner is non-empty. -/
def notifSet (s : NotifState) (e success : String) (now : Nat) : NotifState :=
  if e = s.error ∧ success = s.success then s
  else
    { error := e, success := success,
      deadline := if e ≠ "" ∨ success ≠ "" then some (now + clearDelay) else none }

/-- Advancing the clock to the given instant: when the pending timer
fires exactly then, both banners are cleared unconditionally, and the
effect rerun on the now-empty pair arms no new timer. -/
def notifTick (s : NotifState) (now : Nat) : NotifState :=
  match s.deadline with
  | some d => if now = d then { error := "", success := "", deadline := none } else s
  | none => s

/-- The source-level validity condition on the form, stated directly as
the specification phrases it: the three text fields are non-empty after
sanitation and the age field parses to an integer between 1 and 150. -/
def validForm (f : FormData) : Bool :=
  !(sanitize f.name == "") && !(sanitize f.profession == "") && !(sanitize f.bio == "") &&
  (match jsParseInt f.age with
   | some a => decide (1 ≤ a ∧ a ≤ 150)
   | none => false)

/-- The four local validation banner texts. -/
def validationMessages : List String :=
  ["Name cannot be empty", "Profession cannot be empty", "Bio cannot be empty",
   "Please enter a valid age between 1 and 150"]

/-- A store with no record: every row has the empty name. -/
def emptyStore : Store := fun _ => ("", 0, "", "")

/-- A connected session with a filled form and a well-formed lowercase
search address, used to instantiate the theorems below. -/
def sampleConnected : AppState :=
  { initState with
      hasProvider := true, hasSigner := true, hasContract := true,
      account := "0xaaaaaaaaaaaaaaaaaaaaaaaaaaaaaaaaaaaaaaaa",
      formData := { name := " Bob", age := "42", profession := "dev", bio := "hi" },
      searchAddress := "0xbbbbbbbbbbbbbbbbbbbbbbbbbbbbbbbbbbbbbbbb" }

/-- The sanitized arguments of the sample form. -/
def sampleArgs : UpsertArgs :=
  { name := "Bob", age := 42, profession := "dev", bio := "hi" }

/-- A sample thrown failure carrying a user-rejection message. -/
def sampleErr : JsError :=
  { code := none, message := some "user rejected action", reason := none }

theorem validForm_iff_ok (f : FormData) :
    validForm f = true ↔ ∃ args, sanitizeValidate f = Except.ok args := by
  unfold validForm sanitizeValidate
  by_cases h1 : sanitize f.name = ""
  · simp [h1]
  · by_cases h2 : sanitize f.profession = ""
    · simp [h1, h2]
    · by_cases h3 : sanitize f.bio = ""
      · simp [h1, h2, h3]
      · cases h4 : jsParseInt f.age with
        | none => simp [h1, h2, h3, h4]
        | some a =>
          by_cases h5 : a ≤ 0 ∨ 150 < a
          · simp [h1, h2, h3, h4, h5]
            omega
          · simp [h1, h2, h3, h4, h5]
            omega

theorem sanitizeValidate_ok_spec (f : FormData) (args : UpsertArgs)
    (h : sanitizeValidate f = Except.ok args) :
    args.name = sanitize f.name ∧ args.profession = sanitize f.profession ∧
    args.bio = sanitize f.bio ∧ jsParseInt f.age = some (args.age : Int) ∧
    1 ≤ args.age ∧ args.age ≤ 150 ∧ args.name ≠ "" := by
  unfold sanitizeValidate at h
  by_cases h1 : sanitize f.name = ""
  · simp [h1] at h
  · by_cases h2 : sanitize f.profession = ""
    · simp [h1, h2] at h
    · by_cases h3 : sanitize f.bio = ""
      · simp [h1, h2, h3] at h
      · cases h4 : jsParseInt f.age with
        | none => simp [h1, h2, h3, h4] at h
        | some a =>
          by_cases h5 : a ≤ 0 ∨ 150 < a
          · simp [h1, h2, h3, h4, h5] at h
          · simp [h1, h2, h3, h4, h5] at h
            subst h
            refine ⟨rfl, rfl, rfl, ?_, ?_, ?_, h1⟩
            · show some a = some ((a.toNat : Int))
              simp only [Option.some.injEq]
              omega
            · show 1 ≤ a.toNat
              omega
            · show a.toNat ≤ 150
              omega

theorem sanitizeValidate_error_mem (f : FormData) (msg : String)
    (h : sanitizeValidate f = Except.error msg) : msg ∈ validationMessages := by
  unfold sanitizeValidate at h
  unfold validationMessages
  by_cases h1 : sanitize f.name = ""
  · simp [h1] at h
    simp [h]
  · by_cases h2 : sanitize f.profession = ""
    · simp [h1, h2] at h
      simp [h]
    · by_cases h3 : sanitize f.bio = ""
      · simp [h1, h2, h3] at h
        simp [h]
      · cases h4 : jsParseInt f.age with
        | none =>
          simp [h1, h2, h3, h4] at h
          simp [h]
        | some a =>
          by_cases h5 : a ≤ 0 ∨ 150 < a
          · simp [h1, h2, h3, h4, h5] at h
            simp [h]
          · simp [h1, h2, h3, h4, h5] at h

theorem classifyTxError_ne_empty (e : JsError) : classifyTxError e ≠ "" := by
  unfold classifyTxError
  split_ifs
  · decide
  · decide
  · decide
  · decide
  · intro h
    have hd := String.ext_iff.mp h
    simp at hd

/-- C1: for a connected session whose form passes validation, submit
invokes upsert with exactly the sanitized values — each text field
trimmed and stripped of zero-width code points, the age parsed as an
integer — and, once the transaction confirms and the store applies the
upsert, the triggered re-read of the own account populates the displayed
profile with those very values. -/
theorem submit_valid_reflects_sanitized (s : AppState) (store : Store) (args : UpsertArgs)
    (hc : s.hasContract = true) (hsg : s.hasSigner = true)
    (hargs : sanitizeValidate s.formData = Except.ok args) :
    (addUserInfo s TxResult.confirmed
        (readStore (storeUpsert store s.account args) s.account)).2 = some args ∧
    args.name = sanitize s.formData.name ∧
    args.profession = sanitize s.formData.profession ∧
    args.bio = sanitize s.formData.bio ∧
    jsParseInt s.formData.age = some ((args.age : Int)) ∧
    (addUserInfo s TxResult.confirmed
        (readStore (storeUpsert store s.account args) s.account)).1.currentUserData =
      some { name := args.name, age := args.age, profession := args.profession, bio := args.bio } ∧
    (addUserInfo s TxResult.confirmed
        (readStore (storeUpsert store s.account args) s.account)).1.success =
      "User information added successfully!" := by
  obtain ⟨hn, hp, hb, ha, hlo, hhi, hne⟩ := sanitizeValidate_ok_spec _ _ hargs
  unfold addUserInfo loadUserDataForCurrentUser readStore storeUpsert
  simp [hc, hsg, hargs, hne]
  exact ⟨hn, hp, hb, ha⟩

/-- C1 instance: the sample connected session with form (" Bob", "42",
"dev", "hi") upserts ("Bob", 42, "dev", "hi") against the empty store and
redisplays exactly that record. -/
theorem submit_valid_reflects_sanitized_witness :
    (addUserInfo sampleConnected TxResult.confirmed
        (readStore (storeUpsert emptyStore sampleConnected.account sampleArgs) sampleConnected.account)).1.currentUserData =
      some { name := sampleArgs.name, age := sampleArgs.age,
             profession := sampleArgs.profession, bio := sampleArgs.bio } :=
  (submit_valid_reflects_sanitized sampleConnected emptyStore sampleArgs rfl rfl rfl).2.2.2.2.2.1

/-- C2: for a connected session, submit rejects locally exactly when the
form fails validation (a text field empty after sanitation, or the age
not parsing to an integer in 1..150): in that case no upsert call is
made, the error banner carries one of the local validation messages, and
the form fields and both profile views are left unmodified; when the form
is valid the upsert call is attempted. -/
theorem submit_rejects_exactly_invalid (s : AppState) (tx : TxResult) (r : ReadOutcome)
    (hc : s.hasContract = true) (hsg : s.hasSigner = true) :
    (validForm s.formData = false ↔ (addUserInfo s tx r).2 = none) ∧
    (validForm s.formData = false →
      (addUserInfo s tx r).1.formData = s.formData ∧
      (addUserInfo s tx r).1.error ∈ validationMessages ∧
      (addUserInfo s tx r).1.currentUserData = s.currentUserData ∧
      (addUserInfo s tx r).1.searchedUserData = s.searchedUserData ∧
      (addUserInfo s tx r).1.success = s.success) := by
  cases hsv : sanitizeValidate s.formData with
  | error msg =>
    have hvf : validForm s.formData = false := by
      rcases hvt : validForm s.formData with _ | _
      · rfl
      · obtain ⟨args, hok⟩ := (validForm_iff_ok s.formData).mp hvt
        rw [hsv] at hok
        exact absurd hok (by simp)
    unfold addUserInfo
    simp [hc, hsg, hsv, hvf]
    exact sanitizeValidate_error_mem _ _ hsv
  | ok args =>
    have hvt : validForm s.formData = true :=
      (validForm_iff_ok s.formData).mpr ⟨args, hsv⟩
    unfold addUserInfo
    cases tx <;> simp [hc, hsg, hsv, hvt]

/-- C2 instance: a form whose name sanitizes to the empty string is
rejected without an upsert call. -/
theorem submit_rejects_exactly_invalid_witness :
    (addUserInfo { sampleConnected with
        formData := { name := "  ", age := "42", profession := "dev", bio := "hi" } }
      TxResult.confirmed (ReadOutcome.ok "" 0 "" "")).2 = none :=
  ((submit_rejects_exactly_invalid { sampleConnected with
        formData := { name := "  ", age := "42", profession := "dev", bio := "hi" } }
      TxResult.confirmed (ReadOutcome.ok "" 0 "" "") rfl rfl).1).mp rfl

/-- C3: a malformed search address is rejected locally by searchUser: no
read call is made and the only state change is the invalid-address error
banner. -/
theorem search_malformed_rejected (s : AppState) (r : ReadOutcome)
    (hc : s.hasContract = true) (hne : s.searchAddress ≠ "")
    (hbad : isAddress s.searchAddress = false) :
    (searchUser s r).2 = false ∧
    (searchUser s r).1 = { s with error := "Please enter a valid Ethereum address" } := by
  unfold searchUser
  simp [hc, hne, hbad]

/-- C3 instance: searching for the string "nonsense" makes no read call. -/
theorem search_malformed_rejected_witness :
    (searchUser { sampleConnected with searchAddress := "nonsense" }
        (ReadOutcome.ok "" 0 "" "")).2 = false :=
  (search_malformed_rejected { sampleConnected with searchAddress := "nonsense" }
      (ReadOutcome.ok "" 0 "" "") rfl (by decide) rfl).1

/-- C4: on a well-formed address, both viewers map a read response with
an empty name to the absent view and any response with a non-empty name
to the record built from all four response fields; the search path
finishes with an empty error banner and the own-profile path does not
touch the banners. -/
theorem load_maps_response (s : AppState) (n : String) (a : Nat) (p b : String)
    (hc : s.hasContract = true) (hne : s.searchAddress ≠ "")
    (hok : isAddress s.searchAddress = true) :
    ((searchUser s (ReadOutcome.ok n a p b)).1.searchedUserData =
      if n = "" then none else some { name := n, age := a, profession := p, bio := b }) ∧
    (searchUser s (ReadOutcome.ok n a p b)).1.error = "" ∧
    (searchUser s (ReadOutcome.ok n a p b)).2 = true ∧
    ((loadUserDataForCurrentUser s true (ReadOutcome.ok n a p b)).currentUserData =
      if n = "" then none else some { name := n, age := a, profession := p, bio := b }) ∧
    (loadUserDataForCurrentUser s true (ReadOutcome.ok n a p b)).error = s.error := by
  unfold searchUser loadUserData loadUserDataForCurrentUser
  by_cases hn : n = "" <;> simp [hc, hne, hok, hn]

/-- C4 instance: a response with an empty name yields the absent search
view and no error; a populated response yields the populated record. -/
theorem load_maps_response_witness :
    (searchUser sampleConnected (ReadOutcome.ok "" 0 "" "")).1.searchedUserData = none ∧
    (searchUser sampleConnected (ReadOutcome.ok "Ann" 30 "dev" "yo")).1.searchedUserData =
      some { name := "Ann", age := 30, profession := "dev", bio := "yo" } := by
  constructor
  · have h := (load_maps_response sampleConnected "" 0 "" "" rfl (by decide) rfl).1
    simpa using h
  · have h := (load_maps_response sampleConnected "Ann" 30 "dev" "yo" rfl (by decide) rfl).1
    simpa using h

/-- C5: when a submitted upsert fails, the error banner is set to the
classification of the thrown error (user rejection, insufficient funds,
malformed argument, or the generic fallback), which is never empty, and
no partial state is committed: the form fields, both profile views and
the success banner are exactly as before the attempt. -/
theorem submit_failure_classified (s : AppState) (e : JsError) (r : ReadOutcome) (args : UpsertArgs)
    (hc : s.hasContract = true) (hsg : s.hasSigner = true)
    (hargs : sanitizeValidate s.formData = Except.ok args) :
    (addUserInfo s (TxResult.failed e) r).1.error = classifyTxError e ∧
    classifyTxError e ≠ "" ∧
    (addUserInfo s (TxResult.failed e) r).1.formData = s.formData ∧
    (addUserInfo s (TxResult.failed e) r).1.currentUserData = s.currentUserData ∧
    (addUserInfo s (TxResult.failed e) r).1.searchedUserData = s.searchedUserData ∧
    (addUserInfo s (TxResult.failed e) r).1.success = s.success ∧
    (addUserInfo s (TxResult.failed e) r).2 = some args := by
  unfold addUserInfo
  simp [hc, hsg, hargs, classifyTxError_ne_empty]

/-- C5 instance: a user-rejected transaction leaves the form and views in
place and surfaces the classified message. -/
theorem submit_failure_classified_witness :
    (addUserInfo sampleConnected (TxResult.failed sampleErr)
        (ReadOutcome.ok "" 0 "" "")).1.error = classifyTxError sampleErr ∧
    (addUserInfo sampleConnected (TxResult.failed sampleErr)
        (ReadOutcome.ok "" 0 "" "")).1.formData = sampleConnected.formData :=
  ⟨(submit_failure_classified sampleConnected sampleErr (ReadOutcome.ok "" 0 "" "")
      sampleArgs rfl rfl rfl).1,
   (submit_failure_classified sampleConnected sampleErr (ReadOutcome.ok "" 0 "" "")
      sampleArgs rfl rfl rfl).2.2.1⟩

/-- C6: a banner change to a non-empty message at time T arms the clear
timer for T + 5; the tick at T + 5 clears it, a tick at any other instant
does not; and a further change to a different non-empty message at T + 2
cancels the pending timer, so the tick at T + 5 changes nothing and the
clear happens at T + 7. -/
theorem message_autoclear (s : NotifState) (t : Nat) (e1 m1 e2 m2 : String)
    (hchg : ¬(e1 = s.error ∧ m1 = s.success)) (hne1 : e1 ≠ "" ∨ m1 ≠ "")
    (hchg2 : ¬(e2 = e1 ∧ m2 = m1)) (hne2 : e2 ≠ "" ∨ m2 ≠ "") :
    notifSet s e1 m1 t = { error := e1, success := m1, deadline := some (t + 5) } ∧
    notifTick (notifSet s e1 m1 t) (t + 5) =
      { error := "", success := "", deadline := none } ∧
    (∀ u, u ≠ t + 5 → notifTick (notifSet s e1 m1 t) u = notifSet s e1 m1 t) ∧
    notifSet (notifSet s e1 m1 t) e2 m2 (t + 2) =
      { error := e2, success := m2, deadline := some (t + 7) } ∧
    notifTick (notifSet (notifSet s e1 m1 t) e2 m2 (t + 2)) (t + 5) =
      notifSet (notifSet s e1 m1 t) e2 m2 (t + 2) ∧
    notifTick (notifSet (notifSet s e1 m1 t) e2 m2 (t + 2)) (t + 7) =
      { error := "", success := "", deadline := none } := by
  have h1 : notifSet s e1 m1 t = { error := e1, success := m1, deadline := some (t + 5) } := by
    unfold notifSet clearDelay
    simp [hchg, hne1]
  have h2 : notifSet (notifSet s e1 m1 t) e2 m2 (t + 2) =
      { error := e2, success := m2, deadline := some (t + 7) } := by
    rw [h1]
    unfold notifSet clearDelay
    simp [hchg2, hne2]
  refine ⟨h1, ?_, ?_, h2, ?_, ?_⟩
  · rw [h1]
    unfold notifTick
    simp
  · intro u hu
    rw [h1]
    unfold notifTick
    simp [hu]
  · rw [h2]
    unfold notifTick
    simp
  · rw [h2]
    unfold notifTick
    simp

/-- C6 instance: a banner set at time 0 is cleared by the tick at 5. -/
theorem message_autoclear_witness :
    notifTick (notifSet { error := "", success := "", deadline := none } "boom" "" 0) (0 + 5) =
      { error := "", success := "", deadline := none } :=
  (message_autoclear { error := "", success := "", deadline := none } 0 "boom" "" "" "ok"
      (by decide) (by decide) (by decide) (by decide)).2.1

/-- C7 counterexample: the claim that at most one status message is live
at every reachable state fails: after a successful connect (success
banner set) a submit that fails local validation sets the error banner
without clearing the success banner, so both are live at once. -/
theorem single_live_message_cex :
    (addUserInfo (connectWallet initState
        (ConnectOutcome.ok "0xaaaaaaaaaaaaaaaaaaaaaaaaaaaaaaaaaaaaaaaa" (ReadOutcome.ok "" 0 "" "")))
      TxResult.confirmed (ReadOutcome.ok "" 0 "" "")).1.error = "Name cannot be empty" ∧
    (addUserInfo (connectWallet initState
        (ConnectOutcome.ok "0xaaaaaaaaaaaaaaaaaaaaaaaaaaaaaaaaaaaaaaaa" (ReadOutcome.ok "" 0 "" "")))
      TxResult.confirmed (ReadOutcome.ok "" 0 "" "")).1.success = "Wallet connected successfully!" := by
  decide

/-- C7 as amended: supersession is one-directional.  Every operation that
sets the success banner (successful connect, disconnect, confirmed
submit) clears the error banner in the same step, so a success banner is
never accompanied by a stale error; but an operation that sets the error
banner leaves a live success banner in place, so an error and a success
message can be live simultaneously. -/
theorem success_supersedes_error (s1 s2 s3 : AppState) (acct : String) (r r2 : ReadOutcome)
    (args : UpsertArgs) (hc : s2.hasContract = true) (hsg : s2.hasSigner = true)
    (hargs : sanitizeValidate s2.formData = Except.ok args) :
    ((connectWallet s1 (ConnectOutcome.ok acct r)).error = "" ∧
     (connectWallet s1 (ConnectOutcome.ok acct r)).success = "Wallet connected successfully!") ∧
    ((disconnectWallet s3).error = "" ∧
     (disconnectWallet s3).success = "Wallet disconnected successfully!") ∧
    ((addUserInfo s2 TxResult.confirmed r2).1.error = "" ∧
     (addUserInfo s2 TxResult.confirmed r2).1.success = "User information added successfully!") := by
  refine ⟨?_, ⟨rfl, rfl⟩, ?_⟩
  · unfold connectWallet loadUserDataForCurrentUser
    cases r with
    | ok n a p b => by_cases hn : n = "" <;> simp [hn]
    | err e => simp
  · unfold addUserInfo loadUserDataForCurrentUser
    cases r2 with
    | ok n a p b => by_cases hn : n = "" <;> simp [hc, hsg, hargs, hn]
    | err e => simp [hc, hsg, hargs]

/-- C7 amended instance: a confirmed submit from the sample session ends
with an empty error banner and the success banner set. -/
theorem success_supersedes_error_witness :
    (addUserInfo sampleConnected TxResult.confirmed (ReadOutcome.ok "" 0 "" "")).1.error = "" ∧
    (addUserInfo sampleConnected TxResult.confirmed
        (ReadOutcome.ok "" 0 "" "")).1.success = "User information added successfully!" :=
  (success_supersedes_error initState sampleConnected initState "0x"
      (ReadOutcome.ok "" 0 "" "") (ReadOutcome.ok "" 0 "" "") sampleArgs rfl rfl rfl).2.2

/-- C8: the two viewers do not interfere.  Refreshing the own profile
changes neither the searched result, the search box, nor the banners; a
search changes neither the own profile view nor the account. -/
theorem viewers_noninterference (s : AppState) (hasC : Bool) (r rs : ReadOutcome) :
    (loadUserDataForCurrentUser s hasC r).searchedUserData = s.searchedUserData ∧
    (loadUserDataForCurrentUser s hasC r).searchAddress = s.searchAddress ∧
    (loadUserDataForCurrentUser s hasC r).error = s.error ∧
    (loadUserDataForCurrentUser s hasC r).success = s.success ∧
    (searchUser s rs).1.currentUserData = s.currentUserData ∧
    (searchUser s rs).1.account = s.account := by
  unfold loadUserDataForCurrentUser searchUser loadUserData
  cases hasC <;> cases r <;> cases rs <;>
    simp <;> split_ifs <;> simp

/-- C9: disconnect is a pure local reset — it takes no collaborator
response, always produces the cleared session — and a connect performed
right after it yields exactly the state a connect from the initial state
yields (the untouched loading flag apart): no residual data survives. -/
theorem disconnect_clears_session (s : AppState) (acct : String) (r : ReadOutcome) :
    (disconnectWallet s).account = "" ∧
    (disconnectWallet s).hasProvider = false ∧
    (disconnectWallet s).hasSigner = false ∧
    (disconnectWallet s).hasContract = false ∧
    (disconnectWallet s).currentUserData = none ∧
    (disconnectWallet s).searchedUserData = none ∧
    (disconnectWallet s).searchAddress = "" ∧
    (disconnectWallet s).formData = { name := "", age := "", profession := "", bio := "" } ∧
    connectWallet (disconnectWallet s) (ConnectOutcome.ok acct r) =
      { connectWallet initState (ConnectOutcome.ok acct r) with loading := s.loading } := by
  refine ⟨rfl, rfl, rfl, rfl, rfl, rfl, rfl, rfl, ?_⟩
  unfold disconnectWallet connectWallet loadUserDataForCurrentUser initState
  cases r with
  | ok n a p b => by_cases hn : n = "" <;> simp [hn]
  | err e => simp

/-- C10: a thrown read is swallowed by both loaders: the corresponding
view is set to absent, the banners carry no error, and the resulting
state is the very state an empty-record response produces. -/
theorem read_failure_swallowed (s : AppState) (e : JsError)
    (hc : s.hasContract = true) (hne : s.searchAddress ≠ "")
    (hok : isAddress s.searchAddress = true) :
    (loadUserDataForCurrentUser s true (ReadOutcome.err e)).currentUserData = none ∧
    (loadUserDataForCurrentUser s true (ReadOutcome.err e)).error = s.error ∧
    (loadUserDataForCurrentUser s true (ReadOutcome.err e)).success = s.success ∧
    loadUserDataForCurrentUser s true (ReadOutcome.err e) =
      loadUserDataForCurrentUser s true (ReadOutcome.ok "" 0 "" "") ∧
    (searchUser s (ReadOutcome.err e)).1.searchedUserData = none ∧
    (searchUser s (ReadOutcome.err e)).1.error = "" ∧
    (searchUser s (ReadOutcome.err e)).1 = (searchUser s (ReadOutcome.ok "" 0 "" "")).1 := by
  unfold searchUser loadUserData loadUserDataForCurrentUser
  simp [hc, hne, hok]

/-- C10 instance: a thrown read during search of the sample session
leaves the same state as a no-record response. -/
theorem read_failure_swallowed_witness :
    (searchUser sampleConnected (ReadOutcome.err sampleErr)).1 =
      (searchUser sampleConnected (ReadOutcome.ok "" 0 "" "")).1 :=
  (read_failure_swallowed sampleConnected sampleErr rfl (by decide) rfl).2.2.2.2.2.2

end UserDApp
